import Mathlib

/-!
Shallow embedding of `src/app.py`: a one-shot scraper that locates a
wikitable by caption heuristics, normalizes monetary and ordinal columns
of the extracted table, persists it, and derives chart inputs.

Modelling conventions:
* a dataframe is an association list from column label to the ordered list
  of cell values; all columns of a well-formed frame have equal length;
* a cell is either the explicit missing marker (pandas `NA`/`NaN`), a raw
  string, or a number (`pd.to_numeric` results; the data of this program is
  integral, so numbers are modelled as `Int`);
* Python `str.lower` is modelled on the ASCII range plus the accented
  Spanish capitals that can occur in this page's labels;
* digits are ASCII decimal digits (`re` class `\d` on this page's text);
* the external collaborators (HTTP fetch, `pd.read_html`, sqlite, plotting)
  are parameters or are represented by their visible effect only.
-/

/-- Python `str.lower` on one character: ASCII letters plus the accented
Spanish capitals occurring in this source's vocabulary. Other characters
are unchanged. -/
def pyLowerChar (c : Char) : Char :=
  if 'A' ≤ c ∧ c ≤ 'Z' then Char.ofNat (c.toNat + 32)
  else if c = 'Á' then 'á'
  else if c = 'É' then 'é'
  else if c = 'Í' then 'í'
  else if c = 'Ó' then 'ó'
  else if c = 'Ú' then 'ú'
  else if c = 'Ñ' then 'ñ'
  else if c = 'Ü' then 'ü'
  else c

/-- Python `str.lower` (see `pyLowerChar`). -/
def pyLower (s : String) : String := ⟨s.data.map pyLowerChar⟩

/-- Containment of one character sequence in another, Python's `in` for
strings: `needle` occurs as a contiguous run inside the haystack. -/
def seqContains (needle : List Char) : List Char → Bool
  | [] => needle.isEmpty
  | c :: rest => needle.isPrefixOf (c :: rest) || seqContains needle rest

/-- Python `needle in hay` for strings. -/
def strContains (hay needle : String) : Bool := seqContains needle.data hay.data

/-- Leading and trailing whitespace removal on a character sequence. -/
def trimChars (l : List Char) : List Char :=
  ((l.dropWhile Char.isWhitespace).reverse.dropWhile Char.isWhitespace).reverse

/-- Python `str.strip()`. -/
def pyStrip (s : String) : String := ⟨trimChars s.data⟩

/-- Accumulator pass of the decimal parser backing `pd.to_numeric`: consumes
the remaining characters, failing on the first non-digit. -/
def parseDigitsAux (acc : Nat) : List Char → Option Nat
  | [] => some acc
  | c :: cs => if c.isDigit then parseDigitsAux (10 * acc + (c.toNat - 48)) cs else none

/-- Parse a non-empty all-digit character sequence as a natural number;
any other sequence (empty, or holding a non-digit) fails. -/
def parseNatDigits : List Char → Option Nat
  | [] => none
  | c :: cs => parseDigitsAux 0 (c :: cs)

/-- Integer fragment of the numeric text parser behind
`pd.to_numeric(..., errors="coerce")`: an optional sign followed by a
non-empty run of decimal digits. Fractional and scientific forms do not
occur in this program's data and are outside the modelled fragment. -/
def parseIntChars : List Char → Option Int
  | [] => none
  | c :: cs =>
    if c = '-' then (parseNatDigits cs).map fun n => -(n : Int)
    else if c = '+' then (parseNatDigits cs).map fun n => (n : Int)
    else (parseNatDigits (c :: cs)).map fun n => (n : Int)

/-- A dataframe cell: the explicit missing marker, a raw string, or a
numeric value produced by conversion. -/
inductive Cell where
  | missing : Cell
  | str : String → Cell
  | num : Int → Cell
deriving DecidableEq, Repr

/-- Whether a cell is the missing marker (pandas `isna`). -/
def Cell.isMissing : Cell → Bool
  | .missing => true
  | _ => false

/-- Whether a cell still holds an unconverted string. -/
def Cell.isStr : Cell → Bool
  | .str _ => true
  | _ => false

/-- Whether a cell holds a converted number. -/
def Cell.isNum : Cell → Bool
  | .num _ => true
  | _ => false

/-- `to_number` from `app.py` lines 16-25: missing stays missing; any other
cell is coerced to text, every non-digit character is removed, and the
remaining digit string is parsed (`pd.to_numeric(..., errors="coerce")`,
so an empty remainder degrades to missing). A numeric cell `n` prints as
its decimal text, whose digit part re-parses to `n.natAbs`. The function is
total: conversion never raises. -/
def to_number : Cell → Cell
  | .missing => .missing
  | .num n => .num n.natAbs
  | .str s =>
    match parseNatDigits (s.data.filter Char.isDigit) with
    | some n => .num n
    | none => .missing

/-- Elementwise `pd.to_numeric(col, errors="coerce")` as used on ordinal
columns (`app.py` lines 80 and 82): missing stays missing, numbers pass
through, and a string must already look numeric (optional sign and digits,
surrounding whitespace ignored) — no symbol stripping happens here. The
`downcast="integer"` width hint is presentation-only and is not modelled. -/
def pdToNumericCell : Cell → Cell
  | .missing => .missing
  | .num n => .num n
  | .str s =>
    match parseIntChars (trimChars s.data) with
    | some n => .num n
    | none => .missing

/-- Money-like label test, `app.py` lines 69-72: the case-folded label
contains one of the currency/revenue tokens. -/
def moneyLike (low : String) : Bool :=
  strContains low "recaudación" || strContains low "recaudacion" ||
  strContains low "taquilla" || strContains low "mundial" ||
  strContains low "ee. uu" || strContains low "fuera"

/-- Rank/position label test, `app.py` line 79: Python's
`low in ("n.º", "nº", "n°", "puesto", "rango", "posición", "posicion")` —
exact equality against a fixed tuple, not substring containment. -/
def isRankLow (low : String) : Bool :=
  low == "n.º" || low == "nº" || low == "n°" || low == "puesto" ||
  low == "rango" || low == "posición" || low == "posicion"

/-- Patterns of the movie-title role (`app.py` line 61). -/
def moviePatterns : List String := ["título", "titulo", "película", "pelicula", "film"]

/-- Patterns of the worldwide-gross role (`app.py` line 62). -/
def worldPatterns : List String := ["recaudación mundial", "recaudacion mundial", "mundial", "global"]

/-- Patterns of the domestic-gross role (`app.py` line 63). -/
def domesticPatterns : List String := ["ee. uu.", "ee. uu", "estados unidos"]

/-- Patterns of the foreign-gross role (`app.py` line 64). -/
def foreignPatterns : List String := ["fuera de ee. uu.", "fuera de ee. uu", "internacional", "resto del mundo"]

/-- Patterns of the release-year role (`app.py` line 65). -/
def yearPatterns : List String := ["año de estreno", "año", "ano", "estreno"]

/-- `pick` from `app.py` lines 54-59: for each pattern in priority order,
scan the column labels in their original order and return the first label
whose case-folded form contains the pattern; `none` when no pattern matches
any label. -/
def pick (cols : List String) : List String → Option String
  | [] => none
  | p :: rest =>
    match cols.find? (fun c => strContains (pyLower c) p) with
    | some c => some c
    | none => pick cols rest

/-- Per-column normalization, `app.py` lines 67-82, in source order: money
conversion first (lines 73-74), then the ordinal pass (lines 77-82) whose
loop body applies the rank conversion and then the year conversion. The
steps are independent per column, so the two source loops act on one column
exactly as this composition. -/
def normalizeColumn (col_year : Option String) (name : String) (vals : List Cell) : List Cell :=
  let low := pyLower name
  let v1 := if moneyLike low then vals.map to_number else vals
  let v2 := if isRankLow low then v1.map pdToNumericCell else v1
  if col_year = some name then v2.map pdToNumericCell else v2

/-- Column normalization of the whole frame (`app.py` lines 67-82): every
column keeps its label and position; only its values may be converted. -/
def normalizeTable (col_year : Option String) (df : List (String × List Cell)) :
    List (String × List Cell) :=
  df.map fun p => (p.1, normalizeColumn col_year p.1 p.2)

/-- One table element of the parsed document: whether it carries the
`wikitable` rendering class, its caption text when a caption element exists
(`get_text(strip=True)` applied), and its serialized HTML. -/
structure HTMLTable where
  wikitable : Bool
  caption : Option String
  html : String
deriving DecidableEq, Repr

/-- Caption heuristic of `find_target_table`, `app.py` lines 30-34: a
caption element exists and its case-folded text contains a revenue token
("recaudaciones" or "recaudación") and a scope token ("mundial" or
"mundo"). -/
def captionMatch (t : HTMLTable) : Bool :=
  match t.caption with
  | none => false
  | some cap =>
    let text := pyLower cap
    (strContains text "recaudaciones" || strContains text "recaudación") &&
    (strContains text "mundial" || strContains text "mundo")

/-- `find_target_table` from `app.py` lines 27-38: first wikitable whose
caption matches the heuristic, else the first wikitable regardless of
caption, else `none`. Returns the serialized table (`str(t)`). -/
def find_target_table (doc : List HTMLTable) : Option String :=
  match doc.find? (fun t => t.wikitable && captionMatch t) with
  | some t => some t.html
  | none =>
    match doc.find? (fun t => t.wikitable) with
    | some t => some t.html
    | none => none

/-- Outcome of `requests.get`: either the request itself raised (connection
failure/timeout), or a response with a status code and parsed document. -/
inductive FetchResult where
  | failure : FetchResult
  | success : Nat → List HTMLTable → FetchResult
deriving DecidableEq

/-- Number of rows of a well-formed frame (all columns share it). -/
def numRows (df : List (String × List Cell)) : Nat :=
  match df with
  | [] => 0
  | p :: _ => p.2.length

/-- Values of the column named `name` (first occurrence). -/
def colOf (df : List (String × List Cell)) (name : String) : List Cell :=
  match df.find? (fun p => p.1 == name) with
  | some p => p.2
  | none => []

/-- Row-wise view of the selected columns, `df[[c1, c2, ...]]`. -/
def selectedRows (df : List (String × List Cell)) (names : List String) :
    List (List Cell) :=
  (List.range (numRows df)).map fun i =>
    names.map fun n => (colOf df n).getD i Cell.missing

/-- `DataFrame.dropna()` on a row-wise view: keep exactly the rows with no
missing entry. -/
def dropnaRows (rows : List (List Cell)) : List (List Cell) :=
  rows.filter fun r => !(r.any Cell.isMissing)

/-- Per-chart record of a completed run: the input rows of each chart
after its `dropna` selection, or `none` when the chart's role guard failed
and it was skipped. Row order and truncation (`sort_values`, `head`) and
the division by 1e9 are presentation on top of these rows and carry no
information about which rows participate; their type-error crash
conditions, however, are modelled in the chart stages below. `persisted`
is the table written whole to sqlite (lines 84-89). -/
structure MainOutput where
  persisted : List (String × List Cell)
  chart1 : Option (List (List Cell))
  chart2 : Option (List (List Cell))
  chart3 : Option (List (List Cell))
deriving DecidableEq

/-- Whether some row of a row-wise selection still holds an unconverted
string at position `i`. -/
def colHasStr (rows : List (List Cell)) (i : Nat) : Bool :=
  rows.any fun r => (r.getD i Cell.missing).isStr

/-- Whether some row of a row-wise selection holds a number at `i`. -/
def colHasNum (rows : List (List Cell)) (i : Nat) : Bool :=
  rows.any fun r => (r.getD i Cell.missing).isNum

/-- Chart 1 block, `app.py` lines 92-103, up to the external render call.
When the world and movie roles resolved, the input is
`df[[col_movie, col_world]].dropna()` (line 94); the frame is then sorted
by the world column (line 94) and that column divided by 1e9 (line 96).
When any surviving world cell is still a string these pandas operations
raise `TypeError` — a mixed column dies in `sort_values`, an all-string
column in the division — modelled as the error case. The `plot`/`show`
calls (lines 98-103) are the excluded chart-rendering collaborator. -/
def chart1Stage (df : List (String × List Cell))
    (col_movie col_world : Option String) :
    Except String (Option (List (List Cell))) :=
  match col_world, col_movie with
  | some w, some m =>
    let rows := dropnaRows (selectedRows df [m, w])
    if colHasStr rows 1 then .error "TypeError"
    else .ok (some rows)
  | _, _ => .ok none

/-- Chart 2 block, `app.py` lines 105-120, up to the render call. The
input is `df[[col_year, col_world]].dropna()` (lines 106-108); the grouped
per-year sums drawn by the plot are a function of these rows. A string
among the surviving world cells makes `groupby(...).sum()` or the division
at line 113 raise `TypeError`, and mixed year keys make the
`sort_values(col_year)` at line 111 raise `TypeError` (the year column is
always numerically converted inside `runMain`, so there this cannot
fire). -/
def chart2Stage (df : List (String × List Cell))
    (col_movie col_world col_year : Option String) :
    Except String (Option (List (List Cell))) :=
  match col_world, col_movie, col_year with
  | some w, some _, some y =>
    let rows := dropnaRows (selectedRows df [y, w])
    if colHasStr rows 1 || (colHasStr rows 0 && colHasNum rows 0) then
      .error "TypeError"
    else .ok (some rows)
  | _, _, _ => .ok none

/-- Chart 3 block, `app.py` lines 122-135, up to the render call. The
input is `df[[col_movie, col_domestic, col_foreign]].dropna()` (line 123).
The divisions at lines 124-125 raise `TypeError` when any surviving
domestic or foreign cell is still a string. Line 126 then sorts by
`col_domestic + col_foreign` — `col_domestic` is always a `str` there, so
the `isinstance` branch always concatenates the two labels — and
`sort_values` raises `KeyError` whenever that concatenated label is not
one of the selection's three columns, which for distinct non-degenerate
labels is always. On the pathological branch where the concatenation
coincides with a column label the sort succeeds and its ordering
(presentation) is not represented. -/
def chart3Stage (df : List (String × List Cell))
    (col_movie col_domestic col_foreign : Option String) :
    Except String (Option (List (List Cell))) :=
  match col_domestic, col_foreign, col_movie with
  | some d, some f, some m =>
    let rows := dropnaRows (selectedRows df [m, d, f])
    if colHasStr rows 1 || colHasStr rows 2 then .error "TypeError"
    else if [m, d, f].contains (d ++ f) then .ok (some rows)
    else .error "KeyError"
  | _, _, _ => .ok none

/-- Outcome of one run of `main`. `fatal` — an exception before the sqlite
write (fetch failure, HTTP 4xx/5xx, no wikitable located): nothing is
persisted. `persistedCrash` — the table had already been written whole by
`to_sql` (line 87) when a chart-stage pandas operation raised, so the
process dies leaving the persisted table behind as partial output.
`completed` — every chart block ran to its render call. -/
inductive RunResult where
  | fatal : String → RunResult
  | persistedCrash : List (String × List Cell) → String → RunResult
  | completed : MainOutput → RunResult
deriving DecidableEq

/-- `main` from `app.py` lines 40-137, parameterized by the external
extraction step `extract` (`pd.read_html(...)[0]`, turning the located
table's HTML into a raw frame). `requests.get` may raise (connection
failure) and `raise_for_status` raises exactly for 4xx and 5xx status
codes; both abort before anything is persisted. Otherwise column labels
are stripped (line 53), the five roles are picked (lines 61-65), the frame
is normalized (lines 67-82) and persisted whole (lines 84-89), and the
three chart blocks run in source order, the first crash aborting the rest.
Role labels are non-empty (a label only matches a non-empty pattern it
contains), so Python truthiness of a picked label is `Option.isSome`.
Frames where one label serves two roles of the same chart exercise the
library's duplicate-column-label behaviour and are outside the modelled
fragment. -/
def runMain (extract : String → List (String × List Cell)) :
    FetchResult → RunResult
  | .failure => .fatal "requests.ConnectionError"
  | .success status doc =>
    if 400 ≤ status ∧ status < 600 then .fatal "HTTPError"
    else
      match find_target_table doc with
      | none => .fatal "No encontré ninguna tabla wikitable en la página objetivo."
      | some tableHtml =>
        let df1 := (extract tableHtml).map fun p => (pyStrip p.1, p.2)
        let cols := df1.map fun p => p.1
        let col_movie := pick cols moviePatterns
        let col_world := pick cols worldPatterns
        let col_domestic := pick cols domesticPatterns
        let col_foreign := pick cols foreignPatterns
        let col_year := pick cols yearPatterns
        let df := normalizeTable col_year df1
        match chart1Stage df col_movie col_world with
        | .error e => .persistedCrash df e
        | .ok c1 =>
          match chart2Stage df col_movie col_world col_year with
          | .error e => .persistedCrash df e
          | .ok c2 =>
            match chart3Stage df col_movie col_domestic col_foreign with
            | .error e => .persistedCrash df e
            | .ok c3 =>
              .completed { persisted := df, chart1 := c1, chart2 := c2, chart3 := c3 }

/-- The spec's 3-row scenario table. -/
def demoDF : List (String × List Cell) :=
  [("Título", [Cell.str "Movie A", Cell.str "Movie B", Cell.str "Movie C"]),
   ("Recaudación mundial", [Cell.str "$1,200,000,000", Cell.str "$900,500,000", Cell.str "n/a"]),
   ("Año de estreno", [Cell.str "2019", Cell.str "2021", Cell.str "2020"])]

/-- A document holding one matching wikitable, for the scenario runs. -/
def demoTable : HTMLTable :=
  ⟨true, some "Películas con las mayores recaudaciones a nivel mundial", "demo"⟩

/-- The digit accumulator succeeds on an all-digit run and computes the
left fold that reads the digits in order. -/
theorem parseDigitsAux_all_digits (l : List Char) : ∀ acc : Nat,
    l.all Char.isDigit = true →
    parseDigitsAux acc l = some (l.foldl (fun a c => 10 * a + (c.toNat - 48)) acc) := by
  induction l with
  | nil => intro acc _; rfl
  | cons c cs ih =>
    intro acc h
    simp only [List.all_cons, Bool.and_eq_true] at h
    simp only [parseDigitsAux, h.1, if_true, List.foldl_cons]
    exact ih _ h.2

/-- `pd.to_numeric` applied after `to_number` is the identity: `to_number`
already produced a number or the missing marker. -/
theorem pdToNumericCell_toNumber (c : Cell) :
    pdToNumericCell (to_number c) = to_number c := by
  cases c with
  | missing => rfl
  | num n => rfl
  | str s =>
    simp only [to_number]
    cases h : parseNatDigits (s.data.filter Char.isDigit) <;> simp [pdToNumericCell]

/-- Column form of `pdToNumericCell_toNumber`. -/
theorem map_pd_toNumber (l : List Cell) :
    (l.map to_number).map pdToNumericCell = l.map to_number := by
  induction l with
  | nil => rfl
  | cons c cs ih => simp [pdToNumericCell_toNumber, ih]

/-- `pd.to_numeric` with coercion is idempotent on cells. -/
theorem pdToNumericCell_idem (c : Cell) :
    pdToNumericCell (pdToNumericCell c) = pdToNumericCell c := by
  cases c with
  | missing => rfl
  | num n => rfl
  | str s =>
    simp only [pdToNumericCell]
    cases h : parseIntChars (trimChars s.data) <;> simp [pdToNumericCell]

/-- Column form of `pdToNumericCell_idem`. -/
theorem map_pd_idem (l : List Cell) :
    (l.map pdToNumericCell).map pdToNumericCell = l.map pdToNumericCell := by
  induction l with
  | nil => rfl
  | cons c cs ih => simp [pdToNumericCell_idem, ih]

/-- None of the seven exact rank labels carries a money token. -/
theorem rank_not_money (s : String) (h : isRankLow s = true) : moneyLike s = false := by
  simp only [isRankLow, Bool.or_eq_true, beq_iff_eq] at h
  rcases h with ((((((h | h) | h) | h) | h) | h) | h) <;> subst h <;> decide

/-- A money-like label is never an exact rank label. -/
theorem money_not_rank (s : String) (h : moneyLike s = true) : isRankLow s = false := by
  cases hr : isRankLow s
  · rfl
  · rw [rank_not_money s hr] at h; exact absurd h (by simp)

/-- A successful `pick` returns a label containing one of the patterns. -/
theorem pick_some_pattern (cols : List String) :
    ∀ (pats : List String) (c : String), pick cols pats = some c →
      ∃ p ∈ pats, strContains (pyLower c) p = true := by
  intro pats
  induction pats with
  | nil => intro c h; simp [pick] at h
  | cons p rest ih =>
    intro c h
    rw [pick] at h
    cases hf : cols.find? (fun x => strContains (pyLower x) p) with
    | some d =>
      rw [hf] at h
      cases h
      exact ⟨p, List.mem_cons_self _ _, by simpa using List.find?_some hf⟩
    | none =>
      rw [hf] at h
      obtain ⟨q, hq, hqc⟩ := ih c h
      exact ⟨q, List.mem_cons_of_mem _ hq, hqc⟩

/-- The locator returns `none` exactly on documents with no wikitable. -/
theorem find_target_table_none_iff (doc : List HTMLTable) :
    find_target_table doc = none ↔ ∀ t ∈ doc, t.wikitable = false := by
  constructor
  · intro h
    unfold find_target_table at h
    cases h1 : doc.find? (fun t => t.wikitable && captionMatch t) with
    | some t => rw [h1] at h; simp at h
    | none =>
      rw [h1] at h
      cases h2 : doc.find? (fun t => t.wikitable) with
      | some t => rw [h2] at h; simp at h
      | none =>
        intro t ht
        simpa using List.find?_eq_none.mp h2 t ht
  · intro h
    unfold find_target_table
    have h1 : doc.find? (fun t => t.wikitable && captionMatch t) = none :=
      List.find?_eq_none.mpr (fun t ht => by simp [h t ht])
    have h2 : doc.find? (fun t => t.wikitable) = none :=
      List.find?_eq_none.mpr (fun t ht => by simp [h t ht])
    rw [h1, h2]

/-- Normalization never changes the number of cells of a column. -/
theorem normalizeColumn_length (y : Option String) (n : String) (v : List Cell) :
    (normalizeColumn y n v).length = v.length := by
  simp only [normalizeColumn]
  split_ifs <;> simp

/-- Normalization keeps every column's label, position and cell count. -/
theorem normalizeTable_shape (y : Option String) (df : List (String × List Cell)) :
    (normalizeTable y df).map (fun p => (p.1, p.2.length)) =
      df.map (fun p => (p.1, p.2.length)) := by
  induction df with
  | nil => rfl
  | cons p ps ih =>
    simp only [normalizeTable, List.map_cons, List.map_map] at ih ⊢
    simp [normalizeColumn_length, ih]

/-- A money-like column is converted by `to_number` whatever else holds:
the later ordinal pass is the identity on its converted cells. -/
theorem normalizeColumn_of_money (y : Option String) (name : String) (vals : List Cell)
    (hm : moneyLike (pyLower name) = true) :
    normalizeColumn y name vals = vals.map to_number := by
  have hr := money_not_rank _ hm
  by_cases hy : y = some name <;>
    simp [normalizeColumn, hm, hr, hy, map_pd_toNumber, pdToNumericCell_toNumber]

/-- An exact rank column is converted by the plain numeric parse. -/
theorem normalizeColumn_of_rank (y : Option String) (name : String) (vals : List Cell)
    (hr : isRankLow (pyLower name) = true) :
    normalizeColumn y name vals = vals.map pdToNumericCell := by
  have hm := rank_not_money _ hr
  by_cases hy : y = some name <;>
    simp [normalizeColumn, hm, hr, hy, map_pd_idem, pdToNumericCell_idem]

/-- The picked year column, when neither money-like nor a rank label, is
converted by the plain numeric parse. -/
theorem normalizeColumn_of_year (y : Option String) (name : String) (vals : List Cell)
    (hm : moneyLike (pyLower name) = false) (hr : isRankLow (pyLower name) = false)
    (hy : y = some name) :
    normalizeColumn y name vals = vals.map pdToNumericCell := by
  simp [normalizeColumn, hm, hr, hy]

/-- A column that is neither money-like, nor a rank label, nor the year
column passes through untouched. -/
theorem normalizeColumn_of_plain (y : Option String) (name : String) (vals : List Cell)
    (hm : moneyLike (pyLower name) = false) (hr : isRankLow (pyLower name) = false)
    (hy : y ≠ some name) :
    normalizeColumn y name vals = vals := by
  simp [normalizeColumn, hm, hr, hy]

/-- C1: `to_number` maps the missing marker to missing; maps every string
containing at least one decimal digit to the non-negative integer formed by
reading its digits in order (every non-digit character removed); and maps a
string with no digit — so with an empty remaining digit string — to
missing. It is a total function on cells, the model of "never raises". -/
theorem to_number_spec :
    to_number Cell.missing = Cell.missing ∧
    (∀ s : String, s.data.any Char.isDigit = true →
      to_number (Cell.str s) =
        Cell.num (((s.data.filter Char.isDigit).foldl
          (fun a c => 10 * a + (c.toNat - 48)) 0 : Nat) : Int) ∧
      (0 : Int) ≤ (((s.data.filter Char.isDigit).foldl
          (fun a c => 10 * a + (c.toNat - 48)) 0 : Nat) : Int)) ∧
    (∀ s : String, s.data.any Char.isDigit = false →
      to_number (Cell.str s) = Cell.missing) := by
  refine ⟨rfl, ?_, ?_⟩
  · intro s hs
    refine ⟨?_, Int.natCast_nonneg _⟩
    have hall : (s.data.filter Char.isDigit).all Char.isDigit = true := by
      rw [List.all_eq_true]
      intro c hc
      exact (List.mem_filter.mp hc).2
    have hne : s.data.filter Char.isDigit ≠ [] := by
      intro hnil
      rw [List.filter_eq_nil_iff] at hnil
      rw [List.any_eq_true] at hs
      obtain ⟨c, hc, hcd⟩ := hs
      exact hnil c hc hcd
    simp only [to_number]
    cases hd : s.data.filter Char.isDigit with
    | nil => exact absurd hd hne
    | cons c cs =>
      rw [hd] at hall
      simp only [parseNatDigits, parseDigitsAux_all_digits _ 0 hall]
  · intro s hs
    have hnil : s.data.filter Char.isDigit = [] := by
      rw [List.filter_eq_nil_iff]
      intro a ha hd
      have htrue : s.data.any Char.isDigit = true := List.any_eq_true.mpr ⟨a, ha, hd⟩
      rw [htrue] at hs
      exact Bool.noConfusion hs
    simp only [to_number, hnil]
    rfl

/-- Witness for C1 at the spec's own examples. -/
theorem to_number_spec_witness :
    to_number (Cell.str "$2,847,000,000") = Cell.num 2847000000 ∧
    to_number (Cell.str "—") = Cell.missing ∧
    to_number (Cell.str "") = Cell.missing := by
  refine ⟨?_, ?_, ?_⟩
  · exact ((to_number_spec.2.1 "$2,847,000,000" (by decide)).1).trans (by decide)
  · exact to_number_spec.2.2 "—" (by decide)
  · exact to_number_spec.2.2 "" (by decide)

/-- C2: when every wikitable preceding `t` fails the caption heuristic and
`t` is a wikitable whose caption matches, the locator returns exactly `t`,
whatever precedes or follows it; in particular the first match in document
order wins. -/
theorem find_target_table_first_match (pre post : List HTMLTable) (t : HTMLTable)
    (hpre : ∀ u ∈ pre, (u.wikitable && captionMatch u) = false)
    (hw : t.wikitable = true) (hc : captionMatch t = true) :
    find_target_table (pre ++ t :: post) = some t.html := by
  have hfind : (pre ++ t :: post).find? (fun u => u.wikitable && captionMatch u) = some t := by
    rw [List.find?_append]
    have h1 : pre.find? (fun u => u.wikitable && captionMatch u) = none :=
      List.find?_eq_none.mpr (fun u hu => by simp [hpre u hu])
    rw [h1]
    simp [List.find?_cons_of_pos, hw, hc]
  unfold find_target_table
  rw [hfind]

/-- Witness for C2: a non-matching wikitable precedes, another follows. -/
theorem find_target_table_first_match_witness :
    find_target_table
      [⟨true, some "Otras listas", "A"⟩,
       ⟨true, some "Recaudaciones a nivel mundial", "B"⟩,
       ⟨true, none, "C"⟩] = some "B" := by
  exact find_target_table_first_match
    [⟨true, some "Otras listas", "A"⟩] [⟨true, none, "C"⟩]
    ⟨true, some "Recaudaciones a nivel mundial", "B"⟩
    (by decide) (by decide) (by decide)

/-- C3: when no wikitable caption matches the heuristic, the locator
returns the first wikitable in document order regardless of caption; and
when the document holds no wikitable at all, the run aborts with the fatal
"no target found" error before any output is produced. -/
theorem find_target_table_fallback_fatal (doc : List HTMLTable)
    (hnomatch : ∀ u ∈ doc, (u.wikitable && captionMatch u) = false) :
    (∀ t, doc.find? (fun u => u.wikitable) = some t →
      find_target_table doc = some t.html) ∧
    ((∀ t ∈ doc, t.wikitable = false) →
      ∀ (extract : String → List (String × List Cell)) (s : Nat),
        ¬(400 ≤ s ∧ s < 600) →
        runMain extract (FetchResult.success s doc) =
          RunResult.fatal "No encontré ninguna tabla wikitable en la página objetivo.") := by
  have h1 : doc.find? (fun u => u.wikitable && captionMatch u) = none :=
    List.find?_eq_none.mpr (fun u hu => by simp [hnomatch u hu])
  constructor
  · intro t ht
    unfold find_target_table
    rw [h1, ht]
  · intro hall extract s hs
    have hnone : find_target_table doc = none := (find_target_table_none_iff doc).mpr hall
    simp only [runMain, if_neg hs, hnone]

/-- Witness for C3: fallback on a captionless document, fatal error on a
document with no wikitable. -/
theorem find_target_table_fallback_fatal_witness :
    find_target_table
      [⟨false, none, "X"⟩, ⟨true, some "Lista de años", "A"⟩, ⟨true, none, "B"⟩] =
      some "A" ∧
    runMain (fun _ => []) (FetchResult.success 200 []) =
      RunResult.fatal "No encontré ninguna tabla wikitable en la página objetivo." := by
  constructor
  · exact (find_target_table_fallback_fatal
      [⟨false, none, "X"⟩, ⟨true, some "Lista de años", "A"⟩, ⟨true, none, "B"⟩]
      (by decide)).1 ⟨true, some "Lista de años", "A"⟩ (by decide)
  · exact (find_target_table_fallback_fatal [] (by simp)).2 (by simp)
      (fun _ => []) 200 (by decide)

/-- C4: `pick` is a priority search. The first pattern is tested against
all column labels, in original column order, before the second pattern is
tried: if some label contains the head pattern, the first such label is
returned; otherwise the search continues with the remaining patterns; and
when no pattern matches any label the role is left absent. -/
theorem pick_priority_search (cols : List String) (p : String) (rest : List String) :
    (∀ c, cols.find? (fun x => strContains (pyLower x) p) = some c →
        pick cols (p :: rest) = some c) ∧
    (cols.find? (fun x => strContains (pyLower x) p) = none →
        pick cols (p :: rest) = pick cols rest) ∧
    (∀ pats : List String,
        (∀ q ∈ pats, ∀ c ∈ cols, strContains (pyLower c) q = false) →
        pick cols pats = none) := by
  refine ⟨?_, ?_, ?_⟩
  · intro c h
    rw [pick, h]
  · intro h
    rw [pick, h]
  · intro pats
    induction pats with
    | nil => intro _; rfl
    | cons q qs ih =>
      intro h
      have hq : cols.find? (fun x => strContains (pyLower x) q) = none :=
        List.find?_eq_none.mpr
          (fun x hx => by simp [h q (List.mem_cons_self _ _) x hx])
      rw [pick, hq]
      exact ih (fun r hr c hc => h r (List.mem_cons_of_mem _ hr) c hc)

/-- Witness for C4: the head pattern wins across all columns, and a frame
matching no pattern leaves the role absent. -/
theorem pick_priority_search_witness :
    pick ["Otro", "Título original"] moviePatterns = some "Título original" ∧
    pick ["Director"] moviePatterns = none := by
  constructor
  · exact (pick_priority_search ["Otro", "Título original"] "título"
      ["titulo", "película", "pelicula", "film"]).1 "Título original" (by decide)
  · exact (pick_priority_search ["Director"] "título" []).2.2 moviePatterns (by decide)

/-- C5: money-like detection is independent of role matching. Every column
whose case-folded label contains a currency/revenue token has each cell
converted by `to_number`, whatever `col_year` the role matching produced
and whether or not the column was bound to any role. -/
theorem money_column_converted (df : List (String × List Cell)) (col_year : Option String)
    (i : Nat) (name : String) (vals : List Cell)
    (hi : df[i]? = some (name, vals))
    (hm : moneyLike (pyLower name) = true) :
    (normalizeTable col_year df)[i]? = some (name, vals.map to_number) := by
  unfold normalizeTable
  rw [List.getElem?_map, hi]
  simp only [Option.map_some']
  rw [normalizeColumn_of_money col_year name vals hm]

/-- Witness for C5: "Taquilla total" is no role pattern's match, yet its
cells are converted (and its unparsable dash degrades to missing). -/
theorem money_column_converted_witness :
    (normalizeTable none [("Taquilla total", [Cell.str "$5,000", Cell.str "—"])])[0]? =
      some ("Taquilla total", [Cell.num 5000, Cell.missing]) := by
  exact (money_column_converted
    [("Taquilla total", [Cell.str "$5,000", Cell.str "—"])] none 0
    "Taquilla total" [Cell.str "$5,000", Cell.str "—"] rfl (by decide)).trans (by decide)

/-- C7: ordinal-like columns (the exact rank labels, and the picked release
year column) are converted cell-wise by the plain numeric parse
`pdToNumericCell`, total and degrading to missing; that parse does not
strip non-digit characters first: on "2019[a]" it yields missing, while
the stripping conversion `to_number` would have extracted 2019. -/
theorem ordinal_column_conversion (df : List (String × List Cell)) (col_year : Option String)
    (i : Nat) (name : String) (vals : List Cell)
    (hi : df[i]? = some (name, vals)) :
    (isRankLow (pyLower name) = true →
      (normalizeTable col_year df)[i]? = some (name, vals.map pdToNumericCell)) ∧
    (moneyLike (pyLower name) = false → isRankLow (pyLower name) = false →
      col_year = some name →
      (normalizeTable col_year df)[i]? = some (name, vals.map pdToNumericCell)) ∧
    (pdToNumericCell (Cell.str "2019[a]") = Cell.missing ∧
      to_number (Cell.str "2019[a]") = Cell.num 2019) := by
  refine ⟨?_, ?_, by decide, by decide⟩
  · intro hr
    unfold normalizeTable
    rw [List.getElem?_map, hi]
    simp only [Option.map_some']
    rw [normalizeColumn_of_rank col_year name vals hr]
  · intro hm hr hy
    unfold normalizeTable
    rw [List.getElem?_map, hi]
    simp only [Option.map_some']
    rw [normalizeColumn_of_year col_year name vals hm hr hy]

/-- Witness for C7: a rank column is parsed without stripping (the
footnoted cell degrades to missing), and so is the year column. -/
theorem ordinal_column_conversion_witness :
    (normalizeTable none [("N.º", [Cell.str "1", Cell.str "2[3]"])])[0]? =
      some ("N.º", [Cell.num 1, Cell.missing]) ∧
    (normalizeTable (some "Año") [("Año", [Cell.str "1999"])])[0]? =
      some ("Año", [Cell.num 1999]) := by
  constructor
  · exact ((ordinal_column_conversion [("N.º", [Cell.str "1", Cell.str "2[3]"])] none 0
      "N.º" [Cell.str "1", Cell.str "2[3]"] rfl).1 (by decide)).trans (by decide)
  · exact ((ordinal_column_conversion [("Año", [Cell.str "1999"])] (some "Año") 0
      "Año" [Cell.str "1999"] rfl).2.1 (by decide) (by decide) rfl).trans (by decide)

/-- C8: a column whose label contains no role pattern and is neither
money-like nor an exact rank label passes through normalization with its
original values untouched, and the normalized frame keeps every column
(nothing is dropped). The year conversion cannot touch it either: the
picked year column always contains a year pattern. -/
theorem unmatched_column_passthrough (df : List (String × List Cell))
    (i : Nat) (name : String) (vals : List Cell)
    (hi : df[i]? = some (name, vals))
    (hrole : ∀ p ∈ moviePatterns ++ worldPatterns ++ domesticPatterns ++
        foreignPatterns ++ yearPatterns, strContains (pyLower name) p = false)
    (hm : moneyLike (pyLower name) = false)
    (hr : isRankLow (pyLower name) = false) :
    (normalizeTable (pick (df.map fun p => p.1) yearPatterns) df)[i]? =
      some (name, vals) ∧
    (normalizeTable (pick (df.map fun p => p.1) yearPatterns) df).length = df.length := by
  have hyear : pick (df.map fun p => p.1) yearPatterns ≠ some name := by
    intro hy
    obtain ⟨q, hq, hqc⟩ := pick_some_pattern _ _ _ hy
    have hfalse := hrole q (by simp [hq])
    rw [hfalse] at hqc
    exact Bool.noConfusion hqc
  constructor
  · unfold normalizeTable
    rw [List.getElem?_map, hi]
    simp only [Option.map_some']
    rw [normalizeColumn_of_plain _ name vals hm hr hyear]
  · simp [normalizeTable]

/-- Witness for C8: a plain text column survives normalization unchanged. -/
theorem unmatched_column_passthrough_witness :
    (normalizeTable (pick ["Director"] yearPatterns)
        [("Director", [Cell.str "James Cameron", Cell.missing])])[0]? =
      some ("Director", [Cell.str "James Cameron", Cell.missing]) ∧
    (normalizeTable (pick ["Director"] yearPatterns)
        [("Director", [Cell.str "James Cameron", Cell.missing])]).length = 1 := by
  exact unmatched_column_passthrough
    [("Director", [Cell.str "James Cameron", Cell.missing])] 0 "Director"
    [Cell.str "James Cameron", Cell.missing] rfl (by decide) (by decide) (by decide)

/-- C10: a column is treated as a rank/position ordinal column exactly when
its case-folded label equals one of the seven fixed labels; containment of
such a label as a proper substring is not enough ("Puesto general" contains
"puesto" yet is not recognized and its values are not converted) — unlike
role and money-like matching, which use substring containment. -/
theorem rank_label_exact_match (s : String) :
    (isRankLow s = true ↔
      (s = "n.º" ∨ s = "nº" ∨ s = "n°" ∨ s = "puesto" ∨ s = "rango" ∨
        s = "posición" ∨ s = "posicion")) ∧
    (isRankLow (pyLower "Puesto general") = false ∧
      strContains (pyLower "Puesto general") "puesto" = true) ∧
    normalizeTable none [("Puesto general", [Cell.str "7"])] =
      [("Puesto general", [Cell.str "7"])] := by
  refine ⟨?_, by decide, by decide⟩
  simp [isRankLow, Bool.or_eq_true, or_assoc]

/-- Witness for C10 at the exact label "puesto". -/
theorem rank_label_exact_match_witness : isRankLow "puesto" = true := by
  exact (rank_label_exact_match "puesto").1.mpr
    (Or.inr (Or.inr (Or.inr (Or.inl rfl))))

/-- C9: on the 3-row scenario table, the title role resolves to "Título",
the worldwide-gross role to "Recaudación mundial", the year role to
"Año de estreno"; normalization yields gross [1200000000, 900500000,
missing] and years [2019, 2021, 2020]; row C is excluded from the top-N
bar chart input (its worldwide gross is missing) and from the by-year
aggregation input, yet is retained — with all three rows — in the
persisted table. -/
theorem end_to_end_demo :
    pick (demoDF.map fun p => p.1) moviePatterns = some "Título" ∧
    pick (demoDF.map fun p => p.1) worldPatterns = some "Recaudación mundial" ∧
    pick (demoDF.map fun p => p.1) yearPatterns = some "Año de estreno" ∧
    runMain (fun _ => demoDF) (FetchResult.success 200 [demoTable]) =
      RunResult.completed
        { persisted :=
            [("Título", [Cell.str "Movie A", Cell.str "Movie B", Cell.str "Movie C"]),
             ("Recaudación mundial", [Cell.num 1200000000, Cell.num 900500000, Cell.missing]),
             ("Año de estreno", [Cell.num 2019, Cell.num 2021, Cell.num 2020])]
          chart1 := some [[Cell.str "Movie A", Cell.num 1200000000],
                          [Cell.str "Movie B", Cell.num 900500000]]
          chart2 := some [[Cell.num 2019, Cell.num 1200000000],
                          [Cell.num 2021, Cell.num 900500000]]
          chart3 := none } := by
  refine ⟨by decide, by decide, by decide, by rfl⟩

/-- C6: the claim (and spec section 7, clearly the intent) says exactly
two conditions are fatal, both aborting with no partial persistence, and
everything else degrades gracefully. The code has further reachable
crashes, and they strike after the table was persisted. First conjunct:
with columns "Película", "EE. UU." and "Fuera de EE. UU." the movie,
domestic and foreign roles all resolve, so `sort_values` at line 126
receives the concatenated label "EE. UU.Fuera de EE. UU." — no column of
the selection — and raises `KeyError` with the table already written.
Second conjunct: a world column matched only through the "global" pattern
(absent from the money tokens of line 71) is never numerically converted,
so the division at line 96 raises `TypeError`, again after persistence.
Third conjunct: a 304 response — non-2xx — is not fatal either
(`raise_for_status` raises for 4xx/5xx only); the run completes. -/
theorem runMain_reachable_crashes :
    runMain (fun _ => [("Película", [Cell.str "Avatar"]),
                       ("EE. UU.", [Cell.str "$760,507,625"]),
                       ("Fuera de EE. UU.", [Cell.str "$2,162,756,617"])])
        (FetchResult.success 200 [demoTable]) =
      RunResult.persistedCrash
        [("Película", [Cell.str "Avatar"]),
         ("EE. UU.", [Cell.num 760507625]),
         ("Fuera de EE. UU.", [Cell.num 2162756617])]
        "KeyError" ∧
    runMain (fun _ => [("Film", [Cell.str "Movie A"]),
                       ("Global box office", [Cell.str "$100,000"])])
        (FetchResult.success 200 [demoTable]) =
      RunResult.persistedCrash
        [("Film", [Cell.str "Movie A"]),
         ("Global box office", [Cell.str "$100,000"])]
        "TypeError" ∧
    runMain (fun _ => demoDF) (FetchResult.success 304 [demoTable]) =
      RunResult.completed
        { persisted :=
            [("Título", [Cell.str "Movie A", Cell.str "Movie B", Cell.str "Movie C"]),
             ("Recaudación mundial", [Cell.num 1200000000, Cell.num 900500000, Cell.missing]),
             ("Año de estreno", [Cell.num 2019, Cell.num 2021, Cell.num 2020])]
          chart1 := some [[Cell.str "Movie A", Cell.num 1200000000],
                          [Cell.str "Movie B", Cell.num 900500000]]
          chart2 := some [[Cell.num 2019, Cell.num 1200000000],
                          [Cell.num 2021, Cell.num 900500000]]
          chart3 := none } := by
  refine ⟨by rfl, by rfl, by rfl⟩
